import Mathlib

/-!
Shallow embedding of the Shopify proxy service (`app.py` and `shopify.py`).

The repository is a stateless HTTP proxy: Flask route handlers in `app.py`
extract the `X-Shopify-Access-Token` header and query parameters, delegate to
the query layer in `shopify.py` (`GetOrders`, `GetOrdersForCustomerId`,
`GetCustomerID`, `GetProducts`), and shape the result into a JSON response.

Modelling decisions, all taken from the source:
* A request header or query parameter is `Option String`: Flask's
  `request.args.get` / `request.headers.get` return `None` when the key is
  absent and the (possibly empty) string otherwise.
* Python truthiness of such a value (`if not x`) is `pyTruthy`; Python
  f-string interpolation of such a value is `pyStr` (`None` prints as
  `"None"`).
* The upstream GraphQL endpoint is an oracle (`Upstream`): one function per
  query document, taking the endpoint URL, the access token and the
  query-specific variable, and returning either the node/edge list extracted
  by the `.get(...)` chains of `shopify.py`, or the text of the exception
  raised by the HTTP call (`requests.post` + `raise_for_status` + `.json()`).
  The `.get` chains themselves never raise, so any failure of the upstream
  exchange is an exception text.
* Each query-layer function and each handler also returns the list of
  outbound POST calls it performed, so that call-count properties of the spec
  can be stated.
* Order nodes are parsed JSON objects; the only field the proxy inspects is
  `confirmationNumber`, which in the upstream schema is a nullable string,
  hence `Option String`.  Remaining fields are kept opaque.  Product edges
  and customer nodes are treated the same way.
-/

namespace ShopifyProxy

/-- Python truthiness of an optional string: `None` and `""` are falsy,
every other string is truthy.  Models `if not x:` in the source. -/
def pyTruthy : Option String → Bool
  | none => false
  | some s => s ≠ ""

/-- Python f-string interpolation of an optional string: `None` prints as
the literal `"None"`. -/
def pyStr : Option String → String
  | none => "None"
  | some s => s

/-- Number of orders requested per search (`NUM_ORDERS_TO_RETURN = 50`). -/
def NUM_ORDERS_TO_RETURN : Nat := 50

/-- Number of products requested per search (`NUM_PRODUCTS_TO_RETURN = 20`). -/
def NUM_PRODUCTS_TO_RETURN : Nat := 20

/-- Default Shopify API version (`SHOPIFY_API_VERSION = '2025-04'`). -/
def SHOPIFY_API_VERSION : String := "2025-04"

/-- An order node as returned under `data.orders.nodes` (or
`data.customer.orders.nodes`).  `confirmationNumber` is the only field the
proxy inspects (`o['confirmationNumber']`); it is nullable upstream.  The
other requested fields are abstracted into `orderNumber`, `id` and the opaque
remainder `rest`, forwarded verbatim. -/
structure Order where
  id : Option String
  orderNumber : Option String
  confirmationNumber : Option String
  rest : String
deriving DecidableEq, Repr

/-- A product edge as returned under `data.products.edges`; the proxy never
inspects it, so it is opaque. -/
structure Product where
  payload : String
deriving DecidableEq, Repr

/-- A customer node as returned under `data.customers.nodes`; the proxy reads
`.get('id')`, which may be absent or null, hence `Option String`. -/
structure Customer where
  id : Option String
  email : Option String
deriving DecidableEq, Repr

/-- Python exceptions distinguished by the handlers: `except ValueError`
versus the generic `except Exception`. -/
inductive PyError where
  | valueError (msg : String)
  | exception (msg : String)
deriving DecidableEq, Repr

/-- One outbound `requests.post` call, recording the endpoint URL, the
access-token header, and the GraphQL variables of the query document sent. -/
inductive OutboundCall where
  | ordersSearch (url token query_string : String) (num_orders : Nat)
  | customerOrdersQuery (url token customer_id : String) (num_orders : Nat)
  | customerSearch (url token query_string : String)
  | productsSearch (url token query_string : String) (num_products : Nat)
deriving DecidableEq, Repr

/-- The upstream GraphQL endpoint, one oracle per query document of
`shopify.py`.  Arguments: endpoint URL, access token, then the search
variable (`query_string` or `customer_id`).  The result is the extracted
node/edge list on success, or the exception text on HTTP/transport/parse
failure. -/
structure Upstream where
  orders : String → String → String → Except String (List Order)
  customerOrders : String → String → String → Except String (List Order)
  customers : String → String → String → Except String (List Customer)
  products : String → String → String → Except String (List Product)

/-- The endpoint URL each `shopify.py` function builds:
`f"https://{store_name}.myshopify.com/admin/api/{api_verison}/graphql.json"`
after `api_verison = api_verison or SHOPIFY_API_VERSION`. -/
def apiUrl (store_name api_verison : Option String) : String :=
  "https://" ++ pyStr store_name ++ ".myshopify.com/admin/api/" ++
    (if pyTruthy api_verison then pyStr api_verison else SHOPIFY_API_VERSION) ++
    "/graphql.json"

/-- Search filter construction of `GetOrders`: `name:<order_number>` whenever
`order_number is not None`, else `email:<email>` when both `email` and
`confirmation_number` are truthy, else no filter (the `ValueError` case). -/
def buildOrdersQueryString (order_number email confirmation_number : Option String) :
    Option String :=
  match order_number with
  | some n => some ("name:" ++ n)
  | none =>
    if pyTruthy email && pyTruthy confirmation_number then
      some ("email:" ++ pyStr email)
    else
      none

/-- `shopify.GetOrders`: builds the filter string, raises `ValueError` when
none applies, otherwise performs one POST; an upstream failure is re-raised
as `Exception("Shopify order search error: ...")`. -/
def GetOrders (up : Upstream) (store_name : Option String)
    (shopify_access_token : String) (api_verison : Option String)
    (order_number email confirmation_number : Option String) :
    Except PyError (List Order) × List OutboundCall :=
  let url := apiUrl store_name api_verison
  match buildOrdersQueryString order_number email confirmation_number with
  | none =>
      (Except.error (PyError.valueError
        "Either order_number or both email and confirmation number must be provided."), [])
  | some query_string =>
      match up.orders url shopify_access_token query_string with
      | Except.ok orders =>
          (Except.ok orders,
           [OutboundCall.ordersSearch url shopify_access_token query_string NUM_ORDERS_TO_RETURN])
      | Except.error e =>
          (Except.error (PyError.exception ("Shopify order search error: " ++ e)),
           [OutboundCall.ordersSearch url shopify_access_token query_string NUM_ORDERS_TO_RETURN])

/-- `shopify.GetOrdersForCustomerId`: raises `ValueError` when `customer_id`
is falsy, otherwise performs one POST with the customer id as variable. -/
def GetOrdersForCustomerId (up : Upstream) (store_name : Option String)
    (customer_id : Option String) (shopify_access_token : String)
    (api_verison : Option String) :
    Except PyError (List Order) × List OutboundCall :=
  let url := apiUrl store_name api_verison
  if pyTruthy customer_id = false then
    (Except.error (PyError.valueError
      "Either order_number or both email and confirmation number must be provided."), [])
  else
    match up.customerOrders url shopify_access_token (pyStr customer_id) with
    | Except.ok orders =>
        (Except.ok orders,
         [OutboundCall.customerOrdersQuery url shopify_access_token (pyStr customer_id)
            NUM_ORDERS_TO_RETURN])
    | Except.error e =>
        (Except.error (PyError.exception ("Shopify order search error: " ++ e)),
         [OutboundCall.customerOrdersQuery url shopify_access_token (pyStr customer_id)
            NUM_ORDERS_TO_RETURN])

/-- `shopify.GetCustomerID`: raises `ValueError` when `email` is falsy,
otherwise performs one POST with filter `email:<email>` and returns
`customers[0].get('id') if customers else None`. -/
def GetCustomerID (up : Upstream) (store_name : Option String)
    (email : Option String) (shopify_access_token : String)
    (api_verison : Option String) :
    Except PyError (Option String) × List OutboundCall :=
  let url := apiUrl store_name api_verison
  if pyTruthy email = false then
    (Except.error (PyError.valueError "Customer email must be provided."), [])
  else
    let query_string := "email:" ++ pyStr email
    match up.customers url shopify_access_token query_string with
    | Except.ok customers =>
        (Except.ok (customers.head?.bind Customer.id),
         [OutboundCall.customerSearch url shopify_access_token query_string])
    | Except.error e =>
        (Except.error (PyError.exception ("Shopify customer search error: " ++ e)),
         [OutboundCall.customerSearch url shopify_access_token query_string])

/-- Search filter construction of `GetProducts`: the three modes are selected
by `is not None` checks with priority `product_id` over `product_name` over
`description`; no mode selected is the `ValueError` case. -/
def buildProductsQueryString (product_id product_name description : Option String) :
    Option String :=
  match product_id with
  | some i => some ("id:" ++ i)
  | none =>
    match product_name with
    | some n => some ("title:*" ++ n ++ "*")
    | none =>
      match description with
      | some d => some ("description:*" ++ d ++ "*")
      | none => none

/-- `shopify.GetProducts`: builds the filter string, raises `ValueError` when
none applies, otherwise performs one POST; an upstream failure is re-raised
as `Exception("Shopify product search error: ...")`. -/
def GetProducts (up : Upstream) (store_name : Option String)
    (shopify_access_token : String) (api_verison : Option String)
    (product_id product_name description : Option String) :
    Except PyError (List Product) × List OutboundCall :=
  let url := apiUrl store_name api_verison
  match buildProductsQueryString product_id product_name description with
  | none =>
      (Except.error (PyError.valueError "product_name or product_id must be provided."), [])
  | some query_string =>
      match up.products url shopify_access_token query_string with
      | Except.ok products =>
          (Except.ok products,
           [OutboundCall.productsSearch url shopify_access_token query_string
              NUM_PRODUCTS_TO_RETURN])
      | Except.error e =>
          (Except.error (PyError.exception ("Shopify product search error: " ++ e)),
           [OutboundCall.productsSearch url shopify_access_token query_string
              NUM_PRODUCTS_TO_RETURN])

/-- The value placed in the `order` field of a response: an order object or a
placeholder string. -/
inductive OrderResult where
  | record (o : Order)
  | text (s : String)
deriving DecidableEq, Repr

/-- The value placed in the `products` field of a response: the edge list or
a placeholder string. -/
inductive ProductsResult where
  | list (l : List Product)
  | text (s : String)
deriving DecidableEq, Repr

/-- A JSON response body, one constructor per body shape produced by
`app.py`: `{"error": ...}`, the `{'Error': ...}` payload of the
customer-not-found case (note the capital key), `{'order': ...}`,
`{'products': ...}`, `{'product_url': ...}`, and the plain-text health-check
body. -/
inductive Body where
  | error (s : String)
  | errorCap (s : String)
  | order (r : OrderResult)
  | products (r : ProductsResult)
  | product_url (s : String)
  | text (s : String)
deriving DecidableEq, Repr

/-- An HTTP response: status code and JSON body. -/
structure Response where
  status : Nat
  body : Body
deriving DecidableEq, Repr

/-- `GET /`: health check. -/
def health_check : Response :=
  { status := 200, body := Body.text "Ok." }

/-- The Python loop of `shopify_order_by_confirmation_number_and_email`:
start from the placeholder string, scan the orders in list order, and stop at
the first order whose `confirmationNumber` equals the request parameter
(`None == None` is true in Python, so an absent parameter matches a null
field). -/
def matchOrderByConfirmation (orders : List Order)
    (confirmation_number email : Option String) : OrderResult :=
  match orders.find? (fun o => o.confirmationNumber == confirmation_number) with
  | some o => OrderResult.record o
  | none =>
      OrderResult.text ("No orders for " ++ pyStr email ++ " with confirmation number " ++
        pyStr confirmation_number ++ " found.")

/-- `GET /shopify/order-by-number` (`app.shopify_order_by_number`). -/
def shopify_order_by_number (up : Upstream)
    (shopify_access_token store_name api_version order_number : Option String) :
    Response × List OutboundCall :=
  if pyTruthy shopify_access_token = false then
    ({ status := 400, body := Body.error "Missing or invalid Shopify token in request headers" }, [])
  else
    let r := GetOrders up store_name (pyStr shopify_access_token) api_version order_number none none
    match r.1 with
    | Except.error (PyError.valueError m) =>
        ({ status := 400, body := Body.error ("Invalid parameter provided. " ++ m) }, r.2)
    | Except.error (PyError.exception _) =>
        ({ status := 500, body := Body.error "An error occurred while retrieving orders." }, r.2)
    | Except.ok orders =>
        ({ status := 200,
           body := Body.order (match orders with
             | [] => OrderResult.text ("No orders with order number " ++ pyStr order_number ++ " found.")
             | o :: _ => OrderResult.record o) }, r.2)

/-- `GET /shopify/order-by-confirmation-number-and-email`
(`app.shopify_order_by_confirmation_number_and_email`). -/
def shopify_order_by_confirmation_number_and_email (up : Upstream)
    (shopify_access_token store_name api_version confirmation_number email : Option String) :
    Response × List OutboundCall :=
  if pyTruthy shopify_access_token = false then
    ({ status := 400, body := Body.error "Missing or invalid Shopify token in request headers" }, [])
  else
    let c := GetCustomerID up store_name email (pyStr shopify_access_token) api_version
    match c.1 with
    | Except.error (PyError.valueError m) =>
        ({ status := 400, body := Body.error ("Invalid parameter provided. " ++ m) }, c.2)
    | Except.error (PyError.exception _) =>
        ({ status := 500, body := Body.error "An error occurred while retrieving orders." }, c.2)
    | Except.ok customer_id =>
        if pyTruthy customer_id = false then
          ({ status := 400,
             body := Body.errorCap ("Invalid Email. Customer not found with email " ++ pyStr email) },
           c.2)
        else
          let o := GetOrdersForCustomerId up store_name customer_id (pyStr shopify_access_token) api_version
          match o.1 with
          | Except.error (PyError.valueError m) =>
              ({ status := 400, body := Body.error ("Invalid parameter provided. " ++ m) }, c.2 ++ o.2)
          | Except.error (PyError.exception _) =>
              ({ status := 500, body := Body.error "An error occurred while retrieving orders." },
               c.2 ++ o.2)
          | Except.ok orders =>
              ({ status := 200,
                 body := Body.order (matchOrderByConfirmation orders confirmation_number email) },
               c.2 ++ o.2)

/-- `GET /shopify/products` (`app.get_shopify_products`): a first
`GetProducts` call with the caller's `product_id` and `product_name`; when
its result is falsy and `product_name` is truthy, a second call searching the
description; `"No products found."` substituted for an empty final list. -/
def get_shopify_products (up : Upstream)
    (shopify_access_token store_name api_version product_id product_name : Option String) :
    Response × List OutboundCall :=
  if pyTruthy shopify_access_token = false then
    ({ status := 400, body := Body.error "Missing or invalid Shopify token in request headers" }, [])
  else
    let r1 := GetProducts up store_name (pyStr shopify_access_token) api_version
      product_id product_name none
    match r1.1 with
    | Except.error (PyError.valueError m) =>
        ({ status := 400, body := Body.error ("Invalid parameter provided. " ++ m) }, r1.2)
    | Except.error (PyError.exception _) =>
        ({ status := 500, body := Body.error "An error occurred while retrieving products." }, r1.2)
    | Except.ok products =>
        if products.isEmpty && pyTruthy product_name then
          let r2 := GetProducts up store_name (pyStr shopify_access_token) api_version
            none none product_name
          match r2.1 with
          | Except.error (PyError.valueError m) =>
              ({ status := 400, body := Body.error ("Invalid parameter provided. " ++ m) },
               r1.2 ++ r2.2)
          | Except.error (PyError.exception _) =>
              ({ status := 500, body := Body.error "An error occurred while retrieving products." },
               r1.2 ++ r2.2)
          | Except.ok products2 =>
              ({ status := 200,
                 body := Body.products (if products2.length ≤ 0 then
                   ProductsResult.text "No products found." else ProductsResult.list products2) },
               r1.2 ++ r2.2)
        else
          ({ status := 200,
             body := Body.products (if products.length ≤ 0 then
               ProductsResult.text "No products found." else ProductsResult.list products) },
           r1.2)

/-- `GET /shopify/get-product-url` (`app.get_product_url`): pure handler, no
query-layer call.  `if not store_name or not product_handle` responds 400,
otherwise 200 with the interpolated URL. -/
def get_product_url (store_name product_handle : Option String) :
    Response × List OutboundCall :=
  if pyTruthy store_name = false || pyTruthy product_handle = false then
    ({ status := 400, body := Body.error "Missing store_name or product_handle" }, [])
  else
    ({ status := 200,
       body := Body.product_url ("https://" ++ pyStr store_name ++ ".myshopify.com/products/" ++
         pyStr product_handle) }, [])

/-- A sample order node with a non-null confirmation number, used to
instantiate theorems at concrete inputs. -/
def sampleOrder : Order :=
  { id := some "gid1", orderNumber := some "#1001", confirmationNumber := some "CN1", rest := "r" }

/-- A sample order node whose `confirmationNumber` is null (the upstream
field is nullable). -/
def nullConfOrder : Order :=
  { id := some "gid2", orderNumber := some "#1002", confirmationNumber := none, rest := "r" }

/-- A sample customer node with an id. -/
def sampleCustomer : Customer :=
  { id := some "cid1", email := some "jane@example.com" }

/-- An upstream whose every search succeeds with an empty result set. -/
def upEmpty : Upstream :=
  { orders := fun _ _ _ => Except.ok []
    customerOrders := fun _ _ _ => Except.ok []
    customers := fun _ _ _ => Except.ok []
    products := fun _ _ _ => Except.ok [] }

/-- An upstream whose every search succeeds with one sample result. -/
def upSample : Upstream :=
  { orders := fun _ _ _ => Except.ok [sampleOrder]
    customerOrders := fun _ _ _ => Except.ok [sampleOrder]
    customers := fun _ _ _ => Except.ok [sampleCustomer]
    products := fun _ _ _ => Except.ok [Product.mk "p1"] }

/-- An upstream that resolves the sample customer but returns only the
null-confirmation-number order for it. -/
def upNullConf : Upstream :=
  { orders := fun _ _ _ => Except.ok []
    customerOrders := fun _ _ _ => Except.ok [nullConfOrder]
    customers := fun _ _ _ => Except.ok [sampleCustomer]
    products := fun _ _ _ => Except.ok [] }

/-- An upstream whose every exchange fails with exception text `boom`. -/
def upFail : Upstream :=
  { orders := fun _ _ _ => Except.error "boom"
    customerOrders := fun _ _ _ => Except.error "boom"
    customers := fun _ _ _ => Except.error "boom"
    products := fun _ _ _ => Except.error "boom" }

/-- An upstream that resolves the sample customer but fails the subsequent
per-customer orders query. -/
def upCustomerOrdersFail : Upstream :=
  { orders := fun _ _ _ => Except.ok []
    customerOrders := fun _ _ _ => Except.error "boom"
    customers := fun _ _ _ => Except.ok [sampleCustomer]
    products := fun _ _ _ => Except.ok [] }

/-- An upstream whose product title search succeeds empty while any other
product search (in particular the description fallback) fails. -/
def upDescriptionFail : Upstream :=
  { orders := fun _ _ _ => Except.ok []
    customerOrders := fun _ _ _ => Except.ok []
    customers := fun _ _ _ => Except.ok []
    products := fun _ _ q => if q = "title:*shirt*" then Except.ok [] else Except.error "boom" }

/-- Helper: interpolation of a present parameter is the parameter itself. -/
@[simp] theorem pyStr_some (s : String) : pyStr (some s) = s := rfl

/-- Helper: `find?` returns the head of the suffix when everything before it
fails the predicate and it satisfies the predicate. -/
theorem find?_append_first {α : Type} (p : α → Bool) (pre post : List α) (o : α)
    (ho : p o = true) (hpre : ∀ x ∈ pre, p x = false) :
    (pre ++ o :: post).find? p = some o := by
  induction pre with
  | nil => simp [List.find?, ho]
  | cons a l ih =>
    have ha : p a = false := hpre a (List.mem_cons_self a l)
    simp only [List.cons_append, List.find?, ha]
    exact ih (fun x hx => hpre x (List.mem_cons_of_mem a hx))

/-- Claim C3: with a valid credential and an `order_number` parameter, when
the upstream orders query succeeds with list `l`, the response is 200 and the
`order` field is exactly the head of `l` when `l` is non-empty, and the
not-found string when `l` is empty; exactly one orders-search call with
filter `name:<order_number>` is made. -/
theorem C3_order_by_number_first_or_not_found (up : Upstream)
    (token store ver : Option String) (n : String) (l : List Order)
    (htok : pyTruthy token = true)
    (hup : up.orders (apiUrl store ver) (pyStr token) ("name:" ++ n) = Except.ok l) :
    (l = [] → shopify_order_by_number up token store ver (some n) =
      ({ status := 200,
         body := Body.order (OrderResult.text ("No orders with order number " ++ n ++ " found.")) },
       [OutboundCall.ordersSearch (apiUrl store ver) (pyStr token) ("name:" ++ n)
          NUM_ORDERS_TO_RETURN])) ∧
    (∀ o rest, l = o :: rest → shopify_order_by_number up token store ver (some n) =
      ({ status := 200, body := Body.order (OrderResult.record o) },
       [OutboundCall.ordersSearch (apiUrl store ver) (pyStr token) ("name:" ++ n)
          NUM_ORDERS_TO_RETURN])) := by
  constructor
  · intro hl
    subst hl
    simp [shopify_order_by_number, GetOrders, buildOrdersQueryString, htok, hup]
  · intro o rest hl
    subst hl
    simp [shopify_order_by_number, GetOrders, buildOrdersQueryString, htok, hup]

/-- Witness for C3 at a concrete upstream: one sample order is returned as
the `order` field. -/
theorem C3_witness :
    shopify_order_by_number upSample (some "tok") (some "acme") none (some "1001") =
      ({ status := 200, body := Body.order (OrderResult.record sampleOrder) },
       [OutboundCall.ordersSearch (apiUrl (some "acme") none) (pyStr (some "tok")) ("name:" ++ "1001")
          NUM_ORDERS_TO_RETURN]) :=
  (C3_order_by_number_first_or_not_found upSample (some "tok") (some "acme") none "1001"
    [sampleOrder] rfl rfl).2 sampleOrder [] rfl

/-- Claim C6: when the `X-Shopify-Access-Token` header is absent or empty,
each of the three protected endpoints responds 400 with the token error body
and performs zero outbound calls. -/
theorem C6_missing_token_no_calls (up : Upstream)
    (token store ver order_number cn email product_id product_name : Option String)
    (htok : pyTruthy token = false) :
    shopify_order_by_number up token store ver order_number =
      ({ status := 400,
         body := Body.error "Missing or invalid Shopify token in request headers" }, []) ∧
    shopify_order_by_confirmation_number_and_email up token store ver cn email =
      ({ status := 400,
         body := Body.error "Missing or invalid Shopify token in request headers" }, []) ∧
    get_shopify_products up token store ver product_id product_name =
      ({ status := 400,
         body := Body.error "Missing or invalid Shopify token in request headers" }, []) := by
  refine ⟨?_, ?_, ?_⟩ <;>
    simp [shopify_order_by_number, shopify_order_by_confirmation_number_and_email,
      get_shopify_products, htok]

/-- Witness for C6: an absent header on all three endpoints with a sample
upstream. -/
theorem C6_witness :
    shopify_order_by_number upSample none (some "acme") none (some "1001") =
      ({ status := 400,
         body := Body.error "Missing or invalid Shopify token in request headers" }, []) ∧
    shopify_order_by_confirmation_number_and_email upSample none (some "acme") none
        (some "CN1") (some "jane@example.com") =
      ({ status := 400,
         body := Body.error "Missing or invalid Shopify token in request headers" }, []) ∧
    get_shopify_products upSample none (some "acme") none none (some "shirt") =
      ({ status := 400,
         body := Body.error "Missing or invalid Shopify token in request headers" }, []) :=
  C6_missing_token_no_calls upSample none (some "acme") none (some "1001") (some "CN1")
    (some "jane@example.com") none (some "shirt") rfl

/-- Claim C8: `get-product-url` is pure: with non-empty `store_name` and
`product_handle` it responds 200 with exactly the interpolated URL and makes
no outbound call; with either parameter missing or empty it responds 400. -/
theorem C8_get_product_url_pure (store_name product_handle : Option String) :
    (pyTruthy store_name = true → pyTruthy product_handle = true →
      get_product_url store_name product_handle =
        ({ status := 200,
           body := Body.product_url ("https://" ++ pyStr store_name ++
             ".myshopify.com/products/" ++ pyStr product_handle) }, [])) ∧
    (pyTruthy store_name = false ∨ pyTruthy product_handle = false →
      get_product_url store_name product_handle =
        ({ status := 400, body := Body.error "Missing store_name or product_handle" }, [])) := by
  constructor
  · intro hs hh
    simp [get_product_url, hs, hh]
  · intro hb
    rcases hb with hb | hb <;> simp [get_product_url, hb]

/-- Witness for C8 at the spec's example input and at a missing parameter. -/
theorem C8_witness :
    get_product_url (some "acme") (some "polo-shirt-1") =
      ({ status := 200,
         body := Body.product_url "https://acme.myshopify.com/products/polo-shirt-1" }, []) ∧
    get_product_url none (some "polo-shirt-1") =
      ({ status := 400, body := Body.error "Missing store_name or product_handle" }, []) :=
  ⟨(C8_get_product_url_pure (some "acme") (some "polo-shirt-1")).1 (by decide) (by decide),
   (C8_get_product_url_pure none (some "polo-shirt-1")).2 (Or.inl rfl)⟩

/-- Claim C10: `GetOrders` with `order_number` the empty string raises no
`ValueError`: the `is not None` check selects the order-number branch, the
filter built is `name:` with the empty number, and the outbound call
proceeds. -/
theorem C10_empty_order_number_proceeds (up : Upstream) (store : Option String)
    (t : String) (ver email cn : Option String) :
    (GetOrders up store t ver (some "") email cn).2 =
      [OutboundCall.ordersSearch (apiUrl store ver) t "name:" NUM_ORDERS_TO_RETURN] ∧
    ∀ m, (GetOrders up store t ver (some "") email cn).1 ≠
      Except.error (PyError.valueError m) := by
  have hq : buildOrdersQueryString (some "") email cn = some "name:" := rfl
  cases hup : up.orders (apiUrl store ver) t "name:" with
  | ok l =>
    constructor
    · simp [GetOrders, hq, hup]
    · intro m
      simp [GetOrders, hq, hup]
  | error e =>
    constructor
    · simp [GetOrders, hq, hup]
    · intro m
      simp [GetOrders, hq, hup]

/-- Witness for C10 at a concrete upstream. -/
theorem C10_witness :
    (GetOrders upEmpty (some "acme") "tok" none (some "") none none).2 =
      [OutboundCall.ordersSearch (apiUrl (some "acme") none) "tok" "name:"
        NUM_ORDERS_TO_RETURN] ∧
    (GetOrders upEmpty (some "acme") "tok" none (some "") none none).1 ≠
      Except.error (PyError.valueError "x") :=
  ⟨(C10_empty_order_number_proceeds upEmpty (some "acme") "tok" none none none).1,
   (C10_empty_order_number_proceeds upEmpty (some "acme") "tok" none none none).2 "x"⟩

/-- Claim C5: with a valid credential, when the customer lookup succeeds but
yields no customer id (no customer node, or a node without an id), the
response is 400 with the exact customer-not-found payload (key `Error`), and
the only outbound call is the customer search: no per-customer orders call is
made. -/
theorem C5_customer_not_found (up : Upstream) (token store ver cn email : Option String)
    (customers : List Customer)
    (htok : pyTruthy token = true)
    (hemail : pyTruthy email = true)
    (hcust : up.customers (apiUrl store ver) (pyStr token) ("email:" ++ pyStr email) =
      Except.ok customers)
    (hid : pyTruthy (customers.head?.bind Customer.id) = false) :
    shopify_order_by_confirmation_number_and_email up token store ver cn email =
      ({ status := 400,
         body := Body.errorCap ("Invalid Email. Customer not found with email " ++ pyStr email) },
       [OutboundCall.customerSearch (apiUrl store ver) (pyStr token) ("email:" ++ pyStr email)]) ∧
    ∀ u t cid k, OutboundCall.customerOrdersQuery u t cid k ∉
      (shopify_order_by_confirmation_number_and_email up token store ver cn email).2 := by
  have key : shopify_order_by_confirmation_number_and_email up token store ver cn email =
      ({ status := 400,
         body := Body.errorCap ("Invalid Email. Customer not found with email " ++ pyStr email) },
       [OutboundCall.customerSearch (apiUrl store ver) (pyStr token) ("email:" ++ pyStr email)]) := by
    simp [shopify_order_by_confirmation_number_and_email, GetCustomerID, htok, hemail, hcust, hid]
  refine ⟨key, ?_⟩
  intro u t cid k
  rw [key]
  simp

/-- Witness for C5: the lookup succeeds with zero matching customers. -/
theorem C5_witness :
    shopify_order_by_confirmation_number_and_email upEmpty (some "tok") (some "acme") none
        (some "CN1") (some "jane@example.com") =
      ({ status := 400,
         body := Body.errorCap "Invalid Email. Customer not found with email jane@example.com" },
       [OutboundCall.customerSearch (apiUrl (some "acme") none) "tok"
          "email:jane@example.com"]) :=
  (C5_customer_not_found upEmpty (some "tok") (some "acme") none (some "CN1")
    (some "jane@example.com") [] (by decide) (by decide) rfl rfl).1

/-- Claim C7: whenever the underlying upstream exchange of an operation fails
(with arbitrary exception text `e`), the response is 500 with the generic
constant body for that resource; the body is a constant that does not depend
on `e`, so the exception text never reaches the caller.  One conjunct per
failing exchange: the orders search, the customer search, the per-customer
orders query, the first products search, and the description-fallback
products search. -/
theorem C7_upstream_error_generic_500 :
    (∀ (up : Upstream) (token store ver : Option String) (n e : String),
      pyTruthy token = true →
      up.orders (apiUrl store ver) (pyStr token) ("name:" ++ n) = Except.error e →
      (shopify_order_by_number up token store ver (some n)).1 =
        { status := 500, body := Body.error "An error occurred while retrieving orders." }) ∧
    (∀ (up : Upstream) (token store ver cn email : Option String) (e : String),
      pyTruthy token = true → pyTruthy email = true →
      up.customers (apiUrl store ver) (pyStr token) ("email:" ++ pyStr email) =
        Except.error e →
      (shopify_order_by_confirmation_number_and_email up token store ver cn email).1 =
        { status := 500, body := Body.error "An error occurred while retrieving orders." }) ∧
    (∀ (up : Upstream) (token store ver cn email : Option String)
      (customers : List Customer) (e : String),
      pyTruthy token = true → pyTruthy email = true →
      up.customers (apiUrl store ver) (pyStr token) ("email:" ++ pyStr email) =
        Except.ok customers →
      pyTruthy (customers.head?.bind Customer.id) = true →
      up.customerOrders (apiUrl store ver) (pyStr token)
          (pyStr (customers.head?.bind Customer.id)) = Except.error e →
      (shopify_order_by_confirmation_number_and_email up token store ver cn email).1 =
        { status := 500, body := Body.error "An error occurred while retrieving orders." }) ∧
    (∀ (up : Upstream) (token store ver product_id product_name : Option String)
      (qs e : String),
      pyTruthy token = true →
      buildProductsQueryString product_id product_name none = some qs →
      up.products (apiUrl store ver) (pyStr token) qs = Except.error e →
      (get_shopify_products up token store ver product_id product_name).1 =
        { status := 500, body := Body.error "An error occurred while retrieving products." }) ∧
    (∀ (up : Upstream) (token store ver : Option String) (n e : String),
      pyTruthy token = true → n ≠ "" →
      up.products (apiUrl store ver) (pyStr token) ("title:*" ++ n ++ "*") = Except.ok [] →
      up.products (apiUrl store ver) (pyStr token) ("description:*" ++ n ++ "*") =
        Except.error e →
      (get_shopify_products up token store ver none (some n)).1 =
        { status := 500, body := Body.error "An error occurred while retrieving products." }) := by
  refine ⟨?_, ?_, ?_, ?_, ?_⟩
  · intro up token store ver n e htok hup
    simp [shopify_order_by_number, GetOrders, buildOrdersQueryString, htok, hup]
  · intro up token store ver cn email e htok hemail hup
    simp [shopify_order_by_confirmation_number_and_email, GetCustomerID, htok, hemail, hup]
  · intro up token store ver cn email customers e htok hemail hcust hid hup
    simp [shopify_order_by_confirmation_number_and_email, GetCustomerID,
      GetOrdersForCustomerId, htok, hemail, hcust, hid, hup]
  · intro up token store ver product_id product_name qs e htok hq hup
    simp [get_shopify_products, GetProducts, htok, hq, hup]
  · intro up token store ver n e htok hn htitle hdesc
    have hpn : pyTruthy (some n) = true := by simp [pyTruthy, hn]
    simp [get_shopify_products, GetProducts, buildProductsQueryString, htok, hpn,
      htitle, hdesc]

/-- Witness for C7: each conjunct applied to a concretely failing upstream. -/
theorem C7_witness :
    (shopify_order_by_number upFail (some "tok") (some "acme") none (some "1001")).1 =
      { status := 500, body := Body.error "An error occurred while retrieving orders." } ∧
    (shopify_order_by_confirmation_number_and_email upFail (some "tok") (some "acme") none
        (some "CN1") (some "jane@example.com")).1 =
      { status := 500, body := Body.error "An error occurred while retrieving orders." } ∧
    (shopify_order_by_confirmation_number_and_email upCustomerOrdersFail (some "tok")
        (some "acme") none (some "CN1") (some "jane@example.com")).1 =
      { status := 500, body := Body.error "An error occurred while retrieving orders." } ∧
    (get_shopify_products upFail (some "tok") (some "acme") none (some "123") none).1 =
      { status := 500, body := Body.error "An error occurred while retrieving products." } ∧
    (get_shopify_products upDescriptionFail (some "tok") (some "acme") none none
        (some "shirt")).1 =
      { status := 500, body := Body.error "An error occurred while retrieving products." } :=
  ⟨C7_upstream_error_generic_500.1 upFail (some "tok") (some "acme") none "1001" "boom"
      (by decide) rfl,
   C7_upstream_error_generic_500.2.1 upFail (some "tok") (some "acme") none (some "CN1")
      (some "jane@example.com") "boom" (by decide) (by decide) rfl,
   C7_upstream_error_generic_500.2.2.1 upCustomerOrdersFail (some "tok") (some "acme")
      none (some "CN1") (some "jane@example.com") [sampleCustomer] "boom" (by decide)
      (by decide) rfl (by decide) rfl,
   C7_upstream_error_generic_500.2.2.2.1 upFail (some "tok") (some "acme") none
      (some "123") none "id:123" "boom" (by decide) rfl rfl,
   C7_upstream_error_generic_500.2.2.2.2 upDescriptionFail (some "tok") (some "acme")
      none "shirt" "boom" (by decide) (by decide) rfl rfl⟩

/-- Helper: the success path of the confirmation-number endpoint: valid
token, email resolving to a truthy customer id, and a successful
per-customer orders fetch produce a 200 response whose `order` field is the
scan result, after exactly the customer-search and customer-orders calls. -/
theorem order_by_confirmation_success (up : Upstream)
    (token store ver cn email : Option String) (customers : List Customer)
    (orders : List Order)
    (htok : pyTruthy token = true)
    (hemail : pyTruthy email = true)
    (hcust : up.customers (apiUrl store ver) (pyStr token) ("email:" ++ pyStr email) =
      Except.ok customers)
    (hid : pyTruthy (customers.head?.bind Customer.id) = true)
    (hord : up.customerOrders (apiUrl store ver) (pyStr token)
      (pyStr (customers.head?.bind Customer.id)) = Except.ok orders) :
    shopify_order_by_confirmation_number_and_email up token store ver cn email =
      ({ status := 200, body := Body.order (matchOrderByConfirmation orders cn email) },
       [OutboundCall.customerSearch (apiUrl store ver) (pyStr token) ("email:" ++ pyStr email),
        OutboundCall.customerOrdersQuery (apiUrl store ver) (pyStr token)
          (pyStr (customers.head?.bind Customer.id)) NUM_ORDERS_TO_RETURN]) := by
  simp [shopify_order_by_confirmation_number_and_email, GetCustomerID,
    GetOrdersForCustomerId, htok, hemail, hcust, hid, hord]

/-- Helper: when no order in the list carries the requested confirmation
number, the scan yields the placeholder string. -/
theorem matchOrderByConfirmation_eq_text (orders : List Order) (cn email : Option String)
    (h : ∀ o ∈ orders, o.confirmationNumber ≠ cn) :
    matchOrderByConfirmation orders cn email =
      OrderResult.text ("No orders for " ++ pyStr email ++ " with confirmation number " ++
        pyStr cn ++ " found.") := by
  have hf : orders.find? (fun o => o.confirmationNumber == cn) = none := by
    rw [List.find?_eq_none]
    intro x hx
    simp only [beq_iff_eq]
    exact h x hx
  simp [matchOrderByConfirmation, hf]

/-- Helper: the scan yields the first order carrying the requested
confirmation number. -/
theorem matchOrderByConfirmation_eq_first (pre post : List Order) (o : Order)
    (cn email : Option String)
    (ho : o.confirmationNumber = cn) (hpre : ∀ x ∈ pre, x.confirmationNumber ≠ cn) :
    matchOrderByConfirmation (pre ++ o :: post) cn email = OrderResult.record o := by
  have hf : (pre ++ o :: post).find? (fun x => x.confirmationNumber == cn) = some o :=
    find?_append_first _ pre post o (by simp [ho])
      (fun x hx => by
        simp only [beq_eq_false_iff_ne]
        exact hpre x hx)
  simp [matchOrderByConfirmation, hf]

/-- Claim C2: when the email resolves to a customer and the orders fetch
succeeds, the response is 200 and its `order` field is the first order of the
fetched list (whose order is preserved from upstream) whose
`confirmationNumber` equals the supplied `confirmation_number`, or the
not-found placeholder string when no order matches. -/
theorem C2_first_matching_order (up : Upstream)
    (token store ver cn email : Option String) (customers : List Customer)
    (orders : List Order)
    (htok : pyTruthy token = true)
    (hemail : pyTruthy email = true)
    (hcust : up.customers (apiUrl store ver) (pyStr token) ("email:" ++ pyStr email) =
      Except.ok customers)
    (hid : pyTruthy (customers.head?.bind Customer.id) = true)
    (hord : up.customerOrders (apiUrl store ver) (pyStr token)
      (pyStr (customers.head?.bind Customer.id)) = Except.ok orders) :
    (shopify_order_by_confirmation_number_and_email up token store ver cn email).1.status =
      200 ∧
    ((∀ o ∈ orders, o.confirmationNumber ≠ cn) →
      (shopify_order_by_confirmation_number_and_email up token store ver cn email).1.body =
        Body.order (OrderResult.text ("No orders for " ++ pyStr email ++
          " with confirmation number " ++ pyStr cn ++ " found."))) ∧
    (∀ pre o post, orders = pre ++ o :: post → o.confirmationNumber = cn →
      (∀ x ∈ pre, x.confirmationNumber ≠ cn) →
      (shopify_order_by_confirmation_number_and_email up token store ver cn email).1.body =
        Body.order (OrderResult.record o)) := by
  have key := order_by_confirmation_success up token store ver cn email customers orders
    htok hemail hcust hid hord
  refine ⟨by rw [key], ?_, ?_⟩
  · intro h
    rw [key]
    simp [matchOrderByConfirmation_eq_text orders cn email h]
  · intro pre o post heq ho hpre
    subst heq
    rw [key]
    simp [matchOrderByConfirmation_eq_first pre post o cn email ho hpre]

/-- Witness for C2: the sample customer's single order matches the requested
confirmation number and is returned. -/
theorem C2_witness :
    (shopify_order_by_confirmation_number_and_email upSample (some "tok") (some "acme") none
      (some "CN1") (some "jane@example.com")).1.status = 200 ∧
    (shopify_order_by_confirmation_number_and_email upSample (some "tok") (some "acme") none
      (some "CN1") (some "jane@example.com")).1.body =
        Body.order (OrderResult.record sampleOrder) := by
  have h := C2_first_matching_order upSample (some "tok") (some "acme") none (some "CN1")
    (some "jane@example.com") [sampleCustomer] [sampleOrder] (by decide) (by decide) rfl
    (by decide) rfl
  exact ⟨h.1, h.2.2 [] sampleOrder [] rfl rfl (by simp)⟩

/-- Claim C9, counterexample: `confirmation_number` is absent, the email
resolves to the sample customer, and the fetched list holds one order whose
`confirmationNumber` field is null.  Python compares `None == None` as true,
so that order is matched and returned — not the not-found placeholder the
claim promises. -/
theorem C9_counterexample :
    shopify_order_by_confirmation_number_and_email upNullConf (some "tok") (some "acme")
        none none (some "jane@example.com") =
      ({ status := 200, body := Body.order (OrderResult.record nullConfOrder) },
       [OutboundCall.customerSearch (apiUrl (some "acme") none) "tok"
          "email:jane@example.com",
        OutboundCall.customerOrdersQuery (apiUrl (some "acme") none) "tok" "cid1"
          NUM_ORDERS_TO_RETURN]) := by
  rfl

/-- Claim C9 as amended: when `confirmation_number` is absent and the email
resolves to a customer, the endpoint does not fail: it performs the
email-only lookup and responds 200; the `order` field is the not-found
placeholder (interpolating the absent parameter as `None`) unless some
fetched order's `confirmationNumber` field is itself null, in which case the
first such order is returned, the absent parameter comparing equal to the
null field. -/
theorem C9_amended_absent_confirmation (up : Upstream)
    (token store ver email : Option String) (customers : List Customer)
    (orders : List Order)
    (htok : pyTruthy token = true)
    (hemail : pyTruthy email = true)
    (hcust : up.customers (apiUrl store ver) (pyStr token) ("email:" ++ pyStr email) =
      Except.ok customers)
    (hid : pyTruthy (customers.head?.bind Customer.id) = true)
    (hord : up.customerOrders (apiUrl store ver) (pyStr token)
      (pyStr (customers.head?.bind Customer.id)) = Except.ok orders) :
    (shopify_order_by_confirmation_number_and_email up token store ver none email).1.status =
      200 ∧
    ((∀ o ∈ orders, o.confirmationNumber ≠ none) →
      (shopify_order_by_confirmation_number_and_email up token store ver none email).1.body =
        Body.order (OrderResult.text ("No orders for " ++ pyStr email ++
          " with confirmation number " ++ pyStr none ++ " found."))) ∧
    (∀ pre o post, orders = pre ++ o :: post → o.confirmationNumber = none →
      (∀ x ∈ pre, x.confirmationNumber ≠ none) →
      (shopify_order_by_confirmation_number_and_email up token store ver none email).1.body =
        Body.order (OrderResult.record o)) := by
  have key := order_by_confirmation_success up token store ver none email customers orders
    htok hemail hcust hid hord
  refine ⟨by rw [key], ?_, ?_⟩
  · intro h
    rw [key]
    simp [matchOrderByConfirmation_eq_text orders none email h]
  · intro pre o post heq ho hpre
    subst heq
    rw [key]
    simp [matchOrderByConfirmation_eq_first pre post o none email ho hpre]

/-- Witness for C9 as amended: the sample customer's single order has a
non-null confirmation number, so the absent parameter matches nothing and the
placeholder is returned with status 200. -/
theorem C9_witness :
    (shopify_order_by_confirmation_number_and_email upSample (some "tok") (some "acme") none
      none (some "jane@example.com")).1.status = 200 ∧
    (shopify_order_by_confirmation_number_and_email upSample (some "tok") (some "acme") none
      none (some "jane@example.com")).1.body =
        Body.order (OrderResult.text ("No orders for " ++ pyStr (some "jane@example.com") ++
          " with confirmation number " ++ pyStr none ++ " found.")) := by
  have h := C9_amended_absent_confirmation upSample (some "tok") (some "acme") none
    (some "jane@example.com") [sampleCustomer] [sampleOrder] (by decide) (by decide) rfl
    (by decide) rfl
  exact ⟨h.1, h.2.1 (by decide)⟩

/-- Claim C1, counterexample: `product_id` and `product_name` are both
supplied and the id search returns an empty set.  The fallback guard of
`get_shopify_products` tests only `not products and product_name`, so a
second, description-searching call is made — the claim promises that only the
id-based search executes. -/
theorem C1_counterexample :
    get_shopify_products upEmpty (some "tok") (some "acme") none (some "123")
        (some "shirt") =
      ({ status := 200, body := Body.products (ProductsResult.text "No products found.") },
       [OutboundCall.productsSearch (apiUrl (some "acme") none) "tok" "id:123"
          NUM_PRODUCTS_TO_RETURN,
        OutboundCall.productsSearch (apiUrl (some "acme") none) "tok" "description:*shirt*"
          NUM_PRODUCTS_TO_RETURN]) := by
  rfl

/-- Claim C1 as amended: with `product_id` supplied, the id-based search
always executes first; it is the only search whenever `product_name` is
absent or empty, or whenever the id search returns a non-empty result (that
result being returned unchanged); but when a non-empty `product_name` was
also supplied and the id search returns an empty result, one
description-fallback call follows. -/
theorem C1_amended_id_priority (up : Upstream) (token store ver : Option String)
    (i : String) (product_name : Option String)
    (htok : pyTruthy token = true) :
    (pyTruthy product_name = false →
      (get_shopify_products up token store ver (some i) product_name).2 =
        [OutboundCall.productsSearch (apiUrl store ver) (pyStr token) ("id:" ++ i)
          NUM_PRODUCTS_TO_RETURN]) ∧
    (∀ l, up.products (apiUrl store ver) (pyStr token) ("id:" ++ i) = Except.ok l →
      l ≠ [] →
      get_shopify_products up token store ver (some i) product_name =
        ({ status := 200, body := Body.products (ProductsResult.list l) },
         [OutboundCall.productsSearch (apiUrl store ver) (pyStr token) ("id:" ++ i)
            NUM_PRODUCTS_TO_RETURN])) ∧
    (pyTruthy product_name = true →
      up.products (apiUrl store ver) (pyStr token) ("id:" ++ i) = Except.ok [] →
      (get_shopify_products up token store ver (some i) product_name).2 =
        [OutboundCall.productsSearch (apiUrl store ver) (pyStr token) ("id:" ++ i)
          NUM_PRODUCTS_TO_RETURN,
         OutboundCall.productsSearch (apiUrl store ver) (pyStr token)
           ("description:*" ++ pyStr product_name ++ "*") NUM_PRODUCTS_TO_RETURN]) := by
  refine ⟨?_, ?_, ?_⟩
  · intro hpn
    cases hup : up.products (apiUrl store ver) (pyStr token) ("id:" ++ i) with
    | ok l =>
      simp [get_shopify_products, GetProducts, buildProductsQueryString, htok, hpn, hup]
    | error e =>
      simp [get_shopify_products, GetProducts, buildProductsQueryString, htok, hpn, hup]
  · intro l hup hne
    cases l with
    | nil => exact absurd rfl hne
    | cons a t =>
      simp [get_shopify_products, GetProducts, buildProductsQueryString, htok, hup]
  · intro hpn hup
    cases product_name with
    | none => simp [pyTruthy] at hpn
    | some s =>
      cases hdesc : up.products (apiUrl store ver) (pyStr token)
        ("description:*" ++ s ++ "*") with
      | ok l2 =>
        simp [get_shopify_products, GetProducts, buildProductsQueryString, htok, hpn,
          hup, hdesc]
      | error e =>
        simp [get_shopify_products, GetProducts, buildProductsQueryString, htok, hpn,
          hup, hdesc]

/-- Witness for C1 as amended: with no `product_name`, only the id search
runs even though its result is empty. -/
theorem C1_witness :
    (get_shopify_products upEmpty (some "tok") (some "acme") none (some "123") none).2 =
      [OutboundCall.productsSearch (apiUrl (some "acme") none) "tok" "id:123"
        NUM_PRODUCTS_TO_RETURN] :=
  (C1_amended_id_priority upEmpty (some "tok") (some "acme") none "123" none
    (by decide)).1 rfl

/-- Claim C4, counterexample: `product_name` is supplied but empty (the
parameter is present, so the title branch of `GetProducts` runs with filter
`title:**`) and the title search returns an empty list; yet no further
`GetProducts` call is made — the fallback guard
`if not products and product_name:` is falsy for the empty string — and the
call log holds the title call alone, refuting the claim's promise of exactly
one further description-search call. -/
theorem C4_counterexample :
    get_shopify_products upEmpty (some "tok") (some "acme") none none (some "") =
      ({ status := 200, body := Body.products (ProductsResult.text "No products found.") },
       [OutboundCall.productsSearch (apiUrl (some "acme") none) "tok" "title:**"
          NUM_PRODUCTS_TO_RETURN]) := by
  rfl

/-- Claim C4 as amended: with only `product_name` supplied and the title
search returning an empty list: when `product_name` is non-empty, exactly one
further `GetProducts` call is made, searching the description field with the
same term, the final `products` field being the second result alone (never a
union with title results) and the literal string `No products found.` when
both searches are empty; when `product_name` is the empty string, no further
call is made and the `products` field is `No products found.`. -/
theorem C4_amended_title_then_description_fallback (up : Upstream)
    (token store ver : Option String) (n : String)
    (htok : pyTruthy token = true)
    (htitle : up.products (apiUrl store ver) (pyStr token) ("title:*" ++ n ++ "*") =
      Except.ok []) :
    (n ≠ "" →
      (get_shopify_products up token store ver none (some n)).2 =
        [OutboundCall.productsSearch (apiUrl store ver) (pyStr token)
           ("title:*" ++ n ++ "*") NUM_PRODUCTS_TO_RETURN,
         OutboundCall.productsSearch (apiUrl store ver) (pyStr token)
           ("description:*" ++ n ++ "*") NUM_PRODUCTS_TO_RETURN] ∧
      ∀ l2, up.products (apiUrl store ver) (pyStr token) ("description:*" ++ n ++ "*") =
          Except.ok l2 →
        ((l2 = [] → get_shopify_products up token store ver none (some n) =
           ({ status := 200,
              body := Body.products (ProductsResult.text "No products found.") },
            [OutboundCall.productsSearch (apiUrl store ver) (pyStr token)
               ("title:*" ++ n ++ "*") NUM_PRODUCTS_TO_RETURN,
             OutboundCall.productsSearch (apiUrl store ver) (pyStr token)
               ("description:*" ++ n ++ "*") NUM_PRODUCTS_TO_RETURN])) ∧
         (l2 ≠ [] → get_shopify_products up token store ver none (some n) =
           ({ status := 200, body := Body.products (ProductsResult.list l2) },
            [OutboundCall.productsSearch (apiUrl store ver) (pyStr token)
               ("title:*" ++ n ++ "*") NUM_PRODUCTS_TO_RETURN,
             OutboundCall.productsSearch (apiUrl store ver) (pyStr token)
               ("description:*" ++ n ++ "*") NUM_PRODUCTS_TO_RETURN])))) ∧
    (n = "" →
      get_shopify_products up token store ver none (some n) =
        ({ status := 200, body := Body.products (ProductsResult.text "No products found.") },
         [OutboundCall.productsSearch (apiUrl store ver) (pyStr token)
            ("title:*" ++ n ++ "*") NUM_PRODUCTS_TO_RETURN])) := by
  constructor
  · intro hn
    have hpn : pyTruthy (some n) = true := by simp [pyTruthy, hn]
    constructor
    · cases hdesc : up.products (apiUrl store ver) (pyStr token)
        ("description:*" ++ n ++ "*") with
      | ok l2 =>
        simp [get_shopify_products, GetProducts, buildProductsQueryString, htok, hpn,
          htitle, hdesc]
      | error e =>
        simp [get_shopify_products, GetProducts, buildProductsQueryString, htok, hpn,
          htitle, hdesc]
    · intro l2 hdesc
      constructor
      · intro hl2
        subst hl2
        simp [get_shopify_products, GetProducts, buildProductsQueryString, htok, hpn,
          htitle, hdesc]
      · intro hne
        cases l2 with
        | nil => exact absurd rfl hne
        | cons a t =>
          simp [get_shopify_products, GetProducts, buildProductsQueryString, htok, hpn,
            htitle, hdesc]
  · intro hn
    subst hn
    have hpn : pyTruthy (some "") = false := by decide
    have htitle2 : up.products (apiUrl store ver) (pyStr token) "title:**" = Except.ok [] :=
      htitle
    simp [get_shopify_products, GetProducts, buildProductsQueryString, htok, hpn, htitle2]

/-- Witness for C4 as amended, exercising both branches at concrete inputs:
a non-empty term with both searches empty yields `No products found.` after
the title call and one description call; the empty term yields it after the
title call alone. -/
theorem C4_witness :
    get_shopify_products upEmpty (some "tok") (some "acme") none none (some "shirt") =
      ({ status := 200, body := Body.products (ProductsResult.text "No products found.") },
       [OutboundCall.productsSearch (apiUrl (some "acme") none) "tok" "title:*shirt*"
          NUM_PRODUCTS_TO_RETURN,
        OutboundCall.productsSearch (apiUrl (some "acme") none) "tok" "description:*shirt*"
          NUM_PRODUCTS_TO_RETURN]) ∧
    get_shopify_products upEmpty (some "tok") (some "acme") none none (some "") =
      ({ status := 200, body := Body.products (ProductsResult.text "No products found.") },
       [OutboundCall.productsSearch (apiUrl (some "acme") none) "tok" "title:**"
          NUM_PRODUCTS_TO_RETURN]) := by
  have h1 := C4_amended_title_then_description_fallback upEmpty (some "tok") (some "acme")
    none "shirt" (by decide) rfl
  have h2 := C4_amended_title_then_description_fallback upEmpty (some "tok") (some "acme")
    none "" (by decide) rfl
  exact ⟨(((h1.1 (by decide)).2) [] rfl).1 rfl, h2.2 rfl⟩

end ShopifyProxy
